import Mathlib

/-!
Verification development for the multimodal RAG retrieval pipeline.

The definitions below are a shallow embedding of the retrieval pipeline of the
repository `multimodal_RAG_OpenUI_V2`:

* `api/services/search_service.py` — vector search, metadata filters,
  distance-to-similarity conversion, answer-evidence selection;
* `api/services/document_service.py` — batch embedding insertion and the
  persisted index/metadata pair;
* `api.py` — the v1 query endpoint (winner selection, similarity rounding,
  request validation) and document processing;
* `api/models.py` — request validation constraints.

Python floats are modelled as rationals (ℚ); dictionaries carrying JSON data
as association lists; fallible operations return `Except`/`Option`.  The FAISS
flat-L2 index and the `core/` package are external to `src/`; where their
behaviour decides a claim they are modelled from the specification, and the
corresponding definition's doc comment says so.
-/

namespace MultimodalRag

/-- A float vector (Python list / numpy array of floats, modelled over ℚ). -/
abbrev Vec := List ℚ

/-- Content modality, from `api/models.py` `ContentType` (`"text"` / `"image"`). -/
inductive ContentType
  | text
  | image
deriving DecidableEq, Repr, Inhabited

/-- A JSON scalar value as stored in the metadata dictionaries and passed in
search filters (`Dict[str, Any]`). -/
inductive Value
  | str (s : String)
  | int (n : Int)
  | null
deriving DecidableEq, Repr

/-- A filter value: either a single value (equality filter) or a list of
values (membership filter), per `SearchService._apply_filters`. -/
inductive FilterVal
  | single (v : Value)
  | many (vs : List Value)
deriving DecidableEq, Repr

/-- Whether a metadata value `mv` passes one filter entry: for a list-valued
filter the record is kept iff `mv` is contained in the list
(`metadata[key] not in value → False`); otherwise iff the values are equal
(`metadata[key] != value → False`). -/
def filterKeeps (mv : Value) : FilterVal → Bool
  | .single v => decide (mv = v)
  | .many vs => vs.any fun v => decide (mv = v)

/-- `SearchService._apply_filters` (search_service.py lines 192-206): iterate
over the filter entries; a key absent from the metadata dictionary is skipped
(`if key in metadata`); the first mismatching present key returns `False`;
otherwise `True`.  The Python `except` branch (which also returns `True`) is
unreachable in this model: dictionary lookup and list membership on JSON
values do not raise. -/
def applyFilters (metadata : List (String × Value)) (filters : List (String × FilterVal)) : Bool :=
  filters.all fun kv =>
    match metadata.lookup kv.1 with
    | none => true
    | some mv => filterKeeps mv kv.2

/-- One metadata record as appended by `DocumentService._save_embeddings`
(document_service.py lines 196-204): keys `doc_id`, `content_type`, `content`
(defaulted to `""`), `page`, `preview_path`, `parent_doc_id`. -/
structure MetaRecord where
  doc_id : String
  content_type : ContentType
  content : String
  page : Option Nat
  preview_path : Option String
  parent_doc_id : String
deriving DecidableEq, Repr

/-- String form of a `ContentType`, as serialized to JSON. -/
def ContentType.toStr : ContentType → String
  | .text => "text"
  | .image => "image"

/-- The dictionary view of a `MetaRecord`, as it appears in the metadata JSON
file and is consumed by `SearchService._apply_filters`. -/
def MetaRecord.entries (m : MetaRecord) : List (String × Value) :=
  [("doc_id", .str m.doc_id),
   ("content_type", .str m.content_type.toStr),
   ("content", .str m.content),
   ("page", m.page.elim Value.null fun n => .int (Int.ofNat n)),
   ("preview_path", m.preview_path.elim Value.null .str),
   ("parent_doc_id", .str m.parent_doc_id)]

/-- One element of the `embeddings_data` batch built by
`DocumentService._process_single_document`: the embedding vector plus the
metadata fields carried alongside it. -/
structure EmbeddingItem where
  embedding : Vec
  doc_id : String
  content_type : ContentType
  content : String
  page : Option Nat
  preview_path : Option String
deriving DecidableEq, Repr, Inhabited

/-- The persisted per-user index state: the FAISS index (its dimension and its
stored vectors, in slot order) together with the parallel metadata list from
`user_{id}_metadata.json`. -/
structure IndexState where
  dim : Nat
  vectors : List Vec
  metadata : List MetaRecord
deriving DecidableEq, Repr

/-- Error raised when a batch's vectors do not match the index dimension
(FAISS `index.add` asserts the dimension; a ragged batch already fails in
`np.array(...).astype("float32")`). -/
inductive SaveError
  | dimensionMismatch
deriving DecidableEq, Repr

/-- The metadata record appended for one batch item
(document_service.py lines 196-204); `parent_doc_id` is the id of the
document whose batch is being saved. -/
def EmbeddingItem.toMeta (item : EmbeddingItem) (parent : String) : MetaRecord :=
  { doc_id := item.doc_id
    content_type := item.content_type
    content := item.content
    page := item.page
    preview_path := item.preview_path
    parent_doc_id := parent }

/-- The index state `_save_embeddings` starts from (document_service.py
lines 178-189): the loaded persisted one when the index file exists, or a
fresh empty `IndexFlatL2` whose dimension is the length of the first batch
vector (line 187). -/
def loadOrCreate (persisted : Option IndexState) (batch : List EmbeddingItem) : IndexState :=
  match persisted with
  | some st0 => st0
  | none => { dim := (batch.headD default).embedding.length, vectors := [], metadata := [] }

/-- `DocumentService._save_embeddings` (document_service.py lines 170-217),
acting on the persisted state.  `persisted = none` models the index file not
existing yet.  All batch vectors are added at once (`index.add(vectors)`): a
vector whose length differs from the index dimension raises (in FAISS's
`add`, or already in `np.array(...).astype("float32")` for a ragged batch)
before anything is written, so the persisted state is unchanged and the
whole batch is rejected; on success the new index and the extended metadata
list are written back. -/
def saveEmbeddings (persisted : Option IndexState) (doc_id : String)
    (batch : List EmbeddingItem) : Except SaveError IndexState :=
  let st : IndexState := loadOrCreate persisted batch
  if batch.all (fun item => item.embedding.length = st.dim) then
    .ok { st with
          vectors := st.vectors ++ batch.map (·.embedding)
          metadata := st.metadata ++ batch.map (·.toMeta doc_id) }
  else
    .error .dimensionMismatch

/-- Squared Euclidean distance between two vectors, the metric of
`faiss.IndexFlatL2`. -/
def sqDist (q v : Vec) : ℚ := (List.zipWith (fun a b => (a - b) ^ 2) q v).sum

/-- The order in which the index returns hits: ascending distance, ties broken
by ascending slot number. -/
def resultOrder (a b : Nat × ℚ) : Prop := a.2 < b.2 ∨ (a.2 = b.2 ∧ a.1 ≤ b.1)

instance : DecidableRel resultOrder := fun a b => by
  unfold resultOrder; exact inferInstance

instance : IsTotal (Nat × ℚ) resultOrder where
  total a b := by
    rcases lt_trichotomy a.2 b.2 with h | h | h
    · exact Or.inl (Or.inl h)
    · rcases Nat.le_total a.1 b.1 with h1 | h1
      · exact Or.inl (Or.inr ⟨h, h1⟩)
      · exact Or.inr (Or.inr ⟨h.symm, h1⟩)
    · exact Or.inr (Or.inl h)

instance : IsTrans (Nat × ℚ) resultOrder where
  trans a b c hab hbc := by
    rcases hab with hab | ⟨hab, hab1⟩
    · rcases hbc with hbc | ⟨hbc, _⟩
      · exact Or.inl (hab.trans hbc)
      · exact Or.inl (hbc ▸ hab)
    · rcases hbc with hbc | ⟨hbc, hbc1⟩
      · exact Or.inl (hab ▸ hbc)
      · exact Or.inr ⟨hab.trans hbc, hab1.trans hbc1⟩

/-- Modelled from the spec: the nearest-neighbor search performed by
`faiss.IndexFlatL2.search` (an external library, not under `src/`), per
§4.3 of the specification — an exact linear (flat) scan under squared
Euclidean distance returning at most `k` hits as `(slot, distance)` pairs,
ordered ascending by distance with ties broken by ascending slot number. -/
def flatSearch (vectors : List Vec) (q : Vec) (k : Nat) : List (Nat × ℚ) :=
  (List.insertionSort resultOrder ((vectors.map (sqDist q)).enum)).take k

/-- The distance-to-similarity conversion of `SearchService._vector_search`
(search_service.py line 168): `1 / (1 + score) if score >= 0 else 0`. -/
def simOfScore (score : ℚ) : ℚ := if 0 ≤ score then 1 / (1 + score) else 0

/-- Round a rational to the nearest integer, ties to the even integer —
Python's `round` convention. -/
def roundHalfEven (q : ℚ) : ℤ :=
  let f := ⌊q⌋
  if q - f < 1 / 2 then f
  else if 1 / 2 < q - f then f + 1
  else if f % 2 = 0 then f else f + 1

/-- Python's `round(x, 4)`: round to 4 decimal places. -/
def round4 (q : ℚ) : ℚ := (roundHalfEven (q * 10000) : ℚ) / 10000

/-- `api/models.py` `SearchResult`, together with the two entries of its
`metadata` dictionary as filled in by `SearchService._vector_search`
(search_service.py lines 171-182). -/
structure SearchResult where
  content : String
  source : String
  content_type : ContentType
  similarity_score : ℚ
  page : Option Nat
  doc_id : String
  preview_path : Option String
  preview_url : Option String
deriving DecidableEq, Repr

/-- `SearchService._vector_search` (search_service.py lines 141-190): the
FAISS hits are walked in order; a slot outside the metadata list is skipped
(`if idx >= len(metadata) or idx < 0`), a non-empty filter dictionary that
rejects the record skips it, and each kept hit becomes a `SearchResult` with
`simOfScore` applied to its distance.  `previewUrl` stands for
`_get_preview_url`, whose result depends on the file system. -/
def vectorSearch (previewUrl : MetaRecord → Option String) (query_vector : Vec)
    (index : List Vec) (metadata : List MetaRecord) (top_k : Nat)
    (filters : List (String × FilterVal)) : List SearchResult :=
  (flatSearch index query_vector top_k).filterMap fun hit =>
    match metadata.get? hit.1 with
    | none => none
    | some meta =>
      if !filters.isEmpty && !applyFilters meta.entries filters then none
      else
        some { content := meta.content
               source := meta.parent_doc_id
               content_type := meta.content_type
               similarity_score := simOfScore hit.2
               page := meta.page
               doc_id := meta.doc_id
               preview_path := meta.preview_path
               preview_url := previewUrl meta }

/-- The evidence forwarded to `answer_with_gemini`: a page image (identified
by its preview path) or a text string. -/
inductive Evidence
  | image (preview : String)
  | text (content : String)
deriving DecidableEq, Repr

/-- The evidence selected by `SearchService._generate_answer`
(search_service.py lines 219-244): the first-ranked result
(`best_result = search_results[0]`) decides — if it is an image whose
preview file exists, that image; if it is an image without a readable
preview, nothing is forwarded (the fallback message is returned instead);
otherwise the first-ranked result's text content.  `fileExists` stands for
`os.path.exists`. -/
def generateAnswerEvidence (fileExists : String → Bool)
    (search_results : List SearchResult) : Option Evidence :=
  match search_results with
  | [] => none
  | best :: _ =>
    match best.content_type with
    | .image =>
      match best.preview_path with
      | some p => if fileExists p then some (.image p) else none
      | none => none
    | .text => some (.text best.content)

/-- `SearchService._generate_answer` as a whole: the generated answer string,
with `answerGen` standing for the external `answer_with_gemini` call. -/
def generateAnswer (answerGen : String → Evidence → String) (fileExists : String → Bool)
    (query : String) (search_results : List SearchResult) : Option String :=
  if search_results.isEmpty then none
  else
    match generateAnswerEvidence fileExists search_results with
    | some ev => some (answerGen query ev)
    | none => some "Unable to process image for answer generation."

/-- The fields of `SearchResponse` relevant to the pipeline. -/
structure SearchResponseM where
  results : List SearchResult
  answer : Option String
  total_results : Nat
deriving DecidableEq, Repr

/-- `SearchService.search` (search_service.py lines 34-116): embed the query
(`embed` stands for `get_query_embedding`; `none` models an unavailable
embedding, returning an empty response), load the user's index and metadata
(`loaded.1 = none` models a missing index file; `if index is None or not
metadata` yields the "No documents found for this user." response), then
run the vector search and optionally generate an answer.  The function is
total: the surrounding `try/except` means no exception escapes. -/
def searchService (previewUrl : MetaRecord → Option String)
    (embed : String → Option Vec) (fileExists : String → Bool)
    (answerGen : String → Evidence → String)
    (loaded : Option (List Vec) × List MetaRecord)
    (query : String) (top_k : Nat) (include_answer : Bool)
    (filters : List (String × FilterVal)) : SearchResponseM :=
  match embed query with
  | none => { results := [], answer := none, total_results := 0 }
  | some query_vector =>
    match loaded.1 with
    | none =>
      { results := [], answer := some "No documents found for this user.", total_results := 0 }
    | some index =>
      if loaded.2.isEmpty then
        { results := [], answer := some "No documents found for this user.", total_results := 0 }
      else
        let search_results := vectorSearch previewUrl query_vector index loaded.2 top_k filters
        let answer :=
          if include_answer && !search_results.isEmpty then
            generateAnswer answerGen fileExists query search_results
          else none
        { results := search_results, answer := answer, total_results := search_results.length }

/-- One record of api.py's `docs_info` list (api.py lines 182-207): a text
record carries the full text in `content` and a truncated text preview; an
image record carries its page number and the preview image path. -/
structure DocInfo where
  doc_id : String
  source : String
  content_type : ContentType
  content : Option String
  page : Option Nat
  preview : String
deriving DecidableEq, Repr

/-- One ranked result of `core.search.search_documents` as consumed by
api.py: the matched `docs_info` record plus its similarity. -/
structure ApiResult where
  info : DocInfo
  similarity : ℚ
deriving DecidableEq, Repr

/-- Modelled from the spec: `core.search.search_documents` is imported by
api.py from the `core` package, which is not under `src/`.  Per §4.4 of the
specification it embeds the query with role=query (api.py passes
`get_query_embedding` in), searches the index for the `top_k` nearest, and
converts distance to similarity per §3 (`similarity = 1/(1+distance)`); each
hit is joined with its `docs_info` record.  A nonpositive `top_k` yields no
hits. -/
def searchDocuments (query : String) (index : List Vec) (docs_info : List DocInfo)
    (embed : String → Option Vec) (top_k : Int) : List ApiResult :=
  match embed query with
  | none => []
  | some qv =>
    (flatSearch index qv top_k.toNat).filterMap fun hit =>
      (docs_info.get? hit.1).map fun d => { info := d, similarity := simOfScore hit.2 }

/-- api.py `QueryRequest` (lines 44-46): `query: str`, `top_k: int = 3`. -/
structure QueryRequest where
  query : String
  top_k : Int := 3
deriving DecidableEq, Repr

/-- Validation performed by api.py's `QueryRequest` model: pydantic only
checks the field types — there is no `ge`/`le` constraint on `top_k` and no
length constraint on `query`, so every string/int pair is accepted. -/
def queryRequestValid (_query : String) (_top_k : Int) : Bool := true

/-- Validation of `SearchRequest` (api/models.py lines 70-80): `query` has
`min_length=1` and `max_length=1000` and must be non-blank after `strip()`;
`top_k` has `ge=1` and `le=20`. -/
def searchRequestValid (query : String) (top_k : Int) : Bool :=
  decide (1 ≤ query.length) && decide (query.length ≤ 1000) &&
    !query.trim.isEmpty && decide (1 ≤ top_k) && decide (top_k ≤ 20)

/-- Winner selection in api.py `query_documents` (lines 304-315):
`text_result` and `image_result` are the first results of the respective
modality (`next(...)`); if an image result exists its preview image is the
evidence for answer generation, else the text result's content, else the
empty string. -/
def apiEvidence (results : List ApiResult) : Evidence :=
  let text_result := results.find? fun r => decide (r.info.content_type = .text)
  let image_result := results.find? fun r => decide (r.info.content_type = .image)
  match image_result with
  | some i => .image i.info.preview
  | none =>
    match text_result with
    | some t => .text (t.info.content.getD "")
    | none => .text ""

/-- One entry of the `sources` list built by api.py `query_documents`
(lines 319-332): the similarity is rounded with `round(..., 4)`; image
sources carry the page (default 1), text sources carry the text preview. -/
structure QuerySource where
  source : String
  content_type : ContentType
  similarity : ℚ
  page : Option Nat
  preview : Option String
deriving DecidableEq, Repr

/-- The `sources` entry for one result (api.py lines 321-332). -/
def mkQuerySource (r : ApiResult) : QuerySource :=
  { source := r.info.source
    content_type := r.info.content_type
    similarity := round4 r.similarity
    page :=
      match r.info.content_type with
      | .image => some (r.info.page.getD 1)
      | .text => none
    preview :=
      match r.info.content_type with
      | .text => some r.info.preview
      | .image => none }

/-- A FastAPI `HTTPException` as raised by api.py. -/
structure HttpError where
  status : Nat
  detail : String
deriving DecidableEq, Repr

instance {ε α : Type} [DecidableEq ε] [DecidableEq α] : DecidableEq (Except ε α)
  | .ok a, .ok b =>
    if h : a = b then .isTrue (by rw [h]) else .isFalse fun he => h (Except.ok.inj he)
  | .ok _, .error _ => .isFalse fun he => Except.noConfusion he
  | .error _, .ok _ => .isFalse fun he => Except.noConfusion he
  | .error a, .error b =>
    if h : a = b then .isTrue (by rw [h]) else .isFalse fun he => h (Except.error.inj he)

/-- Observable outcome of the api.py `/api/query` handler: whether the query
embedding call was made, the evidence forwarded to `answer_with_gemini`
(none in the no-result branch), and the response — either an `HTTPException`
or the `sources` list of the `QueryResponse`. -/
structure QueryOutcome where
  embedCalled : Bool
  evidence : Option Evidence
  response : Except HttpError (List QuerySource)
deriving DecidableEq, Repr

/-- api.py `query_documents` (lines 277-343).  `loaded = none` models
`faiss_index is None` (nothing indexed yet), which raises
`HTTPException(400, "No documents indexed yet")` before any computation.
Otherwise `search_documents` runs (its first step is the query embedding
call), an empty result list yields the apologetic response with no sources,
and a non-empty one yields the winner evidence and the rounded sources. -/
def queryDocuments (loaded : Option (List Vec × List DocInfo))
    (embed : String → Option Vec) (request : QueryRequest) : QueryOutcome :=
  match loaded with
  | none =>
    { embedCalled := false, evidence := none
      response := .error { status := 400, detail := "No documents indexed yet" } }
  | some (faiss_index, docs_info) =>
    let results := searchDocuments request.query faiss_index docs_info embed request.top_k
    if results.isEmpty then
      { embedCalled := true, evidence := none, response := .ok [] }
    else
      { embedCalled := true, evidence := some (apiEvidence results)
        response := .ok (results.map mkQuerySource) }

/-- An embedding produced during document processing, as appended to
`new_embeddings` in api.py `process_document` (lines 177-181, 195-199). -/
structure NewEmbedding where
  embedding : Vec
  doc_id : String
  content_type : ContentType
deriving DecidableEq, Repr

/-- The per-page identifier `f"{doc_id}_page_{page_num}"`. -/
def pageId (doc_id : String) (page_num : Nat) : String :=
  doc_id ++ "_page_" ++ toString page_num

/-- The image loop of api.py `process_document` (lines 191-207), pages
numbered from `n` (the Python loop enumerates from 1).  A page whose
embedding call yields nothing (`emb is None`, i.e. EmbeddingUnavailable) is
appended to neither list and the loop continues with the remaining pages;
for an embedded page a preview file is saved (`savePreview` stands for
`save_image_preview`) and both lists are extended. -/
def processPages (doc_id filename : String) (savePreview : String → String) :
    Nat → List (Option Vec) → List NewEmbedding × List DocInfo
  | _, [] => ([], [])
  | n, none :: rest => processPages doc_id filename savePreview (n + 1) rest
  | n, some emb :: rest =>
    let tail := processPages doc_id filename savePreview (n + 1) rest
    ({ embedding := emb, doc_id := pageId doc_id n, content_type := .image } :: tail.1,
     { doc_id := pageId doc_id n, source := filename, content_type := .image
       content := none, page := some n
       preview := savePreview (pageId doc_id n ++ ".png") } :: tail.2)

/-- The text branch of api.py `process_document` (lines 174-188): the text
is considered only when non-blank (`if text.strip()`), and appended to both
lists only when its embedding is available; the stored preview truncates the
text to 200 characters. -/
def textPart (doc_id filename : String) (text : String) (textEmb : Option Vec) :
    List NewEmbedding × List DocInfo :=
  if text.trim.isEmpty then ([], [])
  else
    match textEmb with
    | none => ([], [])
    | some emb =>
      ([{ embedding := emb, doc_id := doc_id, content_type := .text }],
       [{ doc_id := doc_id, source := filename, content_type := .text
          content := some text, page := none
          preview := if 200 < text.length then text.take 200 ++ "..." else text }])

/-- The embedding phase of api.py `process_document` (lines 171-221): the
text branch runs first, then every page image is processed in order.
`textEmb` and `pageEmbs` are the values the external
`get_document_embedding` calls return (`none` = EmbeddingUnavailable).
Returns the `new_embeddings` batch and the records appended to `docs_info`;
the reported `embeddings_count` is `len(new_embeddings)`, the length of the
first component. -/
def processDocument (doc_id filename : String) (savePreview : String → String)
    (text : String) (textEmb : Option Vec) (pageEmbs : List (Option Vec)) :
    List NewEmbedding × List DocInfo :=
  let tp := textPart doc_id filename text textEmb
  let pages := processPages doc_id filename savePreview 1 pageEmbs
  (tp.1 ++ pages.1, tp.2 ++ pages.2)

/-- A file-system write operation on the persisted index/metadata pair.  The
last four constructors describe the write-to-temp-then-rename discipline the
specification requires of `persist()`. -/
inductive FsOp
  | writeIndexFile (vectors : List Vec)
  | writeMetaFile (metadata : List MetaRecord)
  | writeTempIndex (vectors : List Vec)
  | writeTempMeta (metadata : List MetaRecord)
  | renameIndexTempOver
  | renameMetaTempOver
deriving DecidableEq, Repr

/-- The two persisted artifacts plus the temporary sibling files a
temp-then-rename discipline would use. -/
structure FsState where
  indexFile : List Vec
  metaFile : List MetaRecord
  tempIndex : Option (List Vec)
  tempMeta : Option (List MetaRecord)
deriving DecidableEq, Repr

/-- Effect of one file-system operation. -/
def applyFsOp (st : FsState) : FsOp → FsState
  | .writeIndexFile v => { st with indexFile := v }
  | .writeMetaFile m => { st with metaFile := m }
  | .writeTempIndex v => { st with tempIndex := some v }
  | .writeTempMeta m => { st with tempMeta := some m }
  | .renameIndexTempOver =>
    match st.tempIndex with
    | some v => { st with indexFile := v, tempIndex := none }
    | none => st
  | .renameMetaTempOver =>
    match st.tempMeta with
    | some m => { st with metaFile := m, tempMeta := none }
    | none => st

/-- Apply a sequence of file-system operations in order. -/
def applyFsOps (st : FsState) (ops : List FsOp) : FsState := ops.foldl applyFsOp st

/-- The write sequence `DocumentService._save_embeddings` performs after a
successful insert (document_service.py lines 206-211): `faiss.write_index`
writes directly to `index_path`, then `json.dump` writes the metadata
directly to `metadata_path`.  No temporary file and no rename occur. -/
def persistOps (vectors : List Vec) (metadata : List MetaRecord) : List FsOp :=
  [.writeIndexFile vectors, .writeMetaFile metadata]

/-- Whether an operation belongs to a write-to-temp-then-rename discipline. -/
def FsOp.isTempOrRename : FsOp → Bool
  | .writeIndexFile _ => false
  | .writeMetaFile _ => false
  | _ => true

/-- The persisted pair is consistent when the vector count equals the
metadata-list length (the invariant of §3 of the specification). -/
def FsState.consistent (st : FsState) : Prop := st.indexFile.length = st.metaFile.length

/-- The dimension a batch is checked against in
`DocumentService._save_embeddings`: the dimension of the loaded index, or —
when no index file exists yet — the length of the first batch vector
(document_service.py line 187). -/
def indexDimension (persisted : Option IndexState) (batch : List EmbeddingItem) : Nat :=
  (loadOrCreate persisted batch).dim

/-!  ## Theorems  -/

/-- Positive characterization of `applyFilters`: a record is kept iff every
filter entry whose key is present in the metadata matches. -/
lemma applyFilters_eq_true_iff (metadata : List (String × Value))
    (filters : List (String × FilterVal)) :
    applyFilters metadata filters = true ↔
      ∀ kv ∈ filters, ∀ mv, metadata.lookup kv.1 = some mv → filterKeeps mv kv.2 = true := by
  unfold applyFilters
  rw [List.all_eq_true]
  constructor
  · intro h kv hkv mv hl
    have hx := h kv hkv
    simpa [hl] using hx
  · intro h kv hkv
    cases hl : metadata.lookup kv.1 with
    | none => simp [hl]
    | some mv => simpa [hl] using h kv hkv mv hl

/-- `filterKeeps` decides equality for scalar filters and membership for
list-valued filters. -/
lemma filterKeeps_eq_true_iff (mv : Value) (fv : FilterVal) :
    filterKeeps mv fv = true ↔
      (match fv with
       | .single v => mv = v
       | .many vs => mv ∈ vs) := by
  cases fv with
  | single v => simp [filterKeeps]
  | many vs =>
    simp only [filterKeeps, List.any_eq_true, decide_eq_true_eq]
    constructor
    · rintro ⟨v, hv, rfl⟩; exact hv
    · intro hv; exact ⟨mv, hv, rfl⟩

/-- `filterKeeps` rejects exactly on a value mismatch (scalar filter) or a
missing membership (list-valued filter). -/
lemma filterKeeps_eq_false_iff (mv : Value) (fv : FilterVal) :
    filterKeeps mv fv = false ↔
      (match fv with
       | .single v => mv ≠ v
       | .many vs => mv ∉ vs) := by
  cases fv with
  | single v => simp [filterKeeps]
  | many vs =>
    simp only [filterKeeps, List.any_eq_false, decide_eq_true_eq]
    constructor
    · intro h hmem
      exact h mv hmem rfl
    · intro h x hx heq
      exact h (heq ▸ hx)

/-- C10: A filter entry whose key is absent from a candidate record's
metadata never excludes that record; a record is dropped exactly when some
filter key present in its metadata has a value different from the filter
value (or, for a list-valued filter, a value not contained in the list).
The Python `except` branch (record kept) is unreachable in this model, since
dictionary lookup and comparison of JSON values do not raise. -/
theorem applyFilters_spec (metadata : List (String × Value))
    (filters : List (String × FilterVal)) :
    ((∀ kv ∈ filters, metadata.lookup kv.1 = none) → applyFilters metadata filters = true) ∧
    (applyFilters metadata filters = false ↔
      ∃ kv ∈ filters, ∃ mv, metadata.lookup kv.1 = some mv ∧
        (match kv.2 with
         | .single v => mv ≠ v
         | .many vs => mv ∉ vs)) := by
  constructor
  · intro h
    rw [applyFilters_eq_true_iff]
    intro kv hkv mv hl
    rw [h kv hkv] at hl
    exact absurd hl (by simp)
  · rw [Bool.eq_false_iff, Ne, applyFilters_eq_true_iff]
    push_neg
    constructor
    · rintro ⟨⟨k, fv⟩, hkv, mv, hl, hbad⟩
      refine ⟨(k, fv), hkv, mv, hl, ?_⟩
      have hbad2 : filterKeeps mv (k, fv).2 = false := Bool.eq_false_iff.mpr hbad
      rw [filterKeeps_eq_false_iff] at hbad2
      cases fv with
      | single v => exact hbad2
      | many vs => exact hbad2
    · rintro ⟨⟨k, fv⟩, hkv, mv, hl, hbad⟩
      refine ⟨(k, fv), hkv, mv, hl, ?_⟩
      refine Bool.eq_false_iff.mp ?_
      rw [filterKeeps_eq_false_iff]
      cases fv with
      | single v => exact hbad
      | many vs => exact hbad

/-- C10 witness: a filter on a key the record does not carry keeps the
record, and a mismatching present key drops it. -/
theorem applyFilters_spec_witness :
    applyFilters [("content_type", Value.str "text")]
      [("category", FilterVal.single (Value.str "x"))] = true ∧
    applyFilters [("content_type", Value.str "text")]
      [("content_type", FilterVal.single (Value.str "image"))] = false := by
  constructor
  · exact (applyFilters_spec _ _).1 (by intro kv hkv; simp at hkv; subst hkv; rfl)
  · exact (applyFilters_spec _ _).2.2
      ⟨("content_type", FilterVal.single (Value.str "image")), by simp, Value.str "text",
        rfl, by simp⟩

/-- C4: The distance-to-similarity conversion equals `1/(1+distance)` on
non-negative distances, is monotonically non-increasing there, and maps
every non-negative distance into `(0, 1]`. -/
theorem simOfScore_spec :
    (∀ d : ℚ, 0 ≤ d → simOfScore d = 1 / (1 + d)) ∧
    (∀ d₁ d₂ : ℚ, 0 ≤ d₁ → d₁ ≤ d₂ → simOfScore d₂ ≤ simOfScore d₁) ∧
    (∀ d : ℚ, 0 ≤ d → 0 < simOfScore d ∧ simOfScore d ≤ 1) := by
  refine ⟨fun d hd => by simp [simOfScore, hd], fun d₁ d₂ h1 h12 => ?_, fun d hd => ?_⟩
  · have h2 : (0 : ℚ) ≤ d₂ := h1.trans h12
    simp only [simOfScore, if_pos h1, if_pos h2]
    exact one_div_le_one_div_of_le (by linarith) (by linarith)
  · simp only [simOfScore, if_pos hd]
    constructor
    · exact div_pos one_pos (by linarith)
    · rw [div_le_one (by linarith)]
      linarith

/-- C4 witness: at distance 2 the similarity is `1/(1+2)`, positive, at most
one, and at least the similarity at distance 5. -/
theorem simOfScore_spec_witness :
    simOfScore 2 = 1 / (1 + 2 : ℚ) ∧ simOfScore 5 ≤ simOfScore 2 ∧
      0 < simOfScore 2 ∧ simOfScore 2 ≤ 1 :=
  ⟨simOfScore_spec.1 2 (by norm_num),
   simOfScore_spec.2.1 2 5 (by norm_num) (by norm_num),
   (simOfScore_spec.2.2 2 (by norm_num)).1,
   (simOfScore_spec.2.2 2 (by norm_num)).2⟩

/-- C2: a successful insert of batch `B` grows the persisted vector count and
metadata-list length by exactly `len(B)`, and a batch containing any vector
whose dimension differs from the index dimension (fixed by the first
inserted vector) fails whole with `DimensionMismatch` — the error is raised
before either artifact is written, so the persisted state is unchanged and
the batch is never partially inserted. -/
theorem saveEmbeddings_batch_spec (persisted : Option IndexState) (doc_id : String)
    (batch : List EmbeddingItem) :
    (∀ st', saveEmbeddings persisted doc_id batch = .ok st' →
      st'.vectors.length = ((persisted.map fun st => st.vectors.length).getD 0) + batch.length ∧
      st'.metadata.length = ((persisted.map fun st => st.metadata.length).getD 0) + batch.length) ∧
    ((∃ item ∈ batch, item.embedding.length ≠ indexDimension persisted batch) →
      saveEmbeddings persisted doc_id batch = .error .dimensionMismatch) := by
  constructor
  · intro st' h
    unfold saveEmbeddings at h
    simp only [] at h
    split at h
    · cases h
      constructor
      · cases persisted <;> simp [loadOrCreate]
      · cases persisted <;> simp [loadOrCreate]
    · exact Except.noConfusion h
  · rintro ⟨item, hmem, hne⟩
    unfold saveEmbeddings
    simp only []
    split
    · rename_i hcond
      rw [List.all_eq_true] at hcond
      exact absurd (of_decide_eq_true (hcond item hmem)) hne
    · rfl

/-- The well-dimensioned two-item batch of the C2 witness. -/
def batchC2ok : List EmbeddingItem :=
  [{ embedding := [0, 0], doc_id := "a", content_type := .text,
     content := "t", page := none, preview_path := none },
   { embedding := [1, 1], doc_id := "b", content_type := .image,
     content := "", page := some 1, preview_path := some "p" }]

/-- The mismatched batch of the C2 witness: the second vector has dimension 3
while the first has dimension 2. -/
def batchC2bad : List EmbeddingItem :=
  [{ embedding := [0, 0], doc_id := "a", content_type := .text,
     content := "t", page := none, preview_path := none },
   { embedding := [1, 1, 1], doc_id := "b", content_type := .image,
     content := "", page := some 1, preview_path := some "p" }]

/-- The state produced by inserting `batchC2ok` into an empty store. -/
def stC2 : IndexState :=
  { dim := 2, vectors := [[0, 0], [1, 1]],
    metadata := [{ doc_id := "a", content_type := .text, content := "t",
                   page := none, preview_path := none, parent_doc_id := "d" },
                 { doc_id := "b", content_type := .image, content := "",
                   page := some 1, preview_path := some "p", parent_doc_id := "d" }] }

/-- C2 witness: inserting a two-item batch into an empty store grows both
counts from 0 to 2, and a batch whose second vector has a different
dimension than the first is rejected whole with `DimensionMismatch`. -/
theorem saveEmbeddings_batch_witness :
    stC2.vectors.length = 0 + 2 ∧ stC2.metadata.length = 0 + 2 ∧
    saveEmbeddings none "d" batchC2bad = .error .dimensionMismatch := by
  have hok : saveEmbeddings none "d" batchC2ok = .ok stC2 := rfl
  have h := (saveEmbeddings_batch_spec none "d" batchC2ok).1 stC2 hok
  refine ⟨by simpa using h.1, by simpa using h.2, ?_⟩
  exact (saveEmbeddings_batch_spec none "d" batchC2bad).2
    ⟨{ embedding := [1, 1, 1], doc_id := "b", content_type := .image,
       content := "", page := some 1, preview_path := some "p" },
     by simp [batchC2bad], by simp [indexDimension, loadOrCreate, batchC2bad]⟩

/-- C3: `flatSearch` returns at most `k` hits, ordered by non-decreasing
distance (nearest first); among hits with identical distance the one with
the lower slot number comes first. -/
theorem flatSearch_order_spec (vectors : List Vec) (q : Vec) (k : Nat) :
    (flatSearch vectors q k).length ≤ k ∧
    (flatSearch vectors q k).Pairwise
      (fun a b => a.2 ≤ b.2 ∧ (a.2 = b.2 → a.1 < b.1)) := by
  constructor
  · exact List.length_take_le k _
  · have hsorted : (List.insertionSort resultOrder
        ((vectors.map (sqDist q)).enum)).Pairwise resultOrder :=
      List.sorted_insertionSort resultOrder ((vectors.map (sqDist q)).enum)
    have hperm := List.perm_insertionSort resultOrder ((vectors.map (sqDist q)).enum)
    have hnodup : ((List.insertionSort resultOrder
        ((vectors.map (sqDist q)).enum)).map Prod.fst).Nodup := by
      rw [(hperm.map Prod.fst).nodup_iff, List.enum_map_fst]
      exact List.nodup_range _
    have hne : (List.insertionSort resultOrder
        ((vectors.map (sqDist q)).enum)).Pairwise (fun a b => a.1 ≠ b.1) := by
      rw [List.Nodup, List.pairwise_map] at hnodup
      exact hnodup
    have himp : (List.insertionSort resultOrder
        ((vectors.map (sqDist q)).enum)).Pairwise
        (fun a b => a.2 ≤ b.2 ∧ (a.2 = b.2 → a.1 < b.1)) := by
      refine (hsorted.and hne).imp ?_
      rintro a b ⟨hord, hne1⟩
      rcases hord with hlt | ⟨heq, hle⟩
      · exact ⟨le_of_lt hlt, fun he => absurd hlt (by simp [he])⟩
      · exact ⟨le_of_eq heq, fun _ => lt_of_le_of_ne hle hne1⟩
    exact List.Pairwise.sublist (List.take_sublist _ _) himp

/-- C3 witness: the search over two stored vectors with `k = 2` satisfies the
bound and the ordering property. -/
theorem flatSearch_order_witness :
    (flatSearch [[0], [2]] [0] 2).length ≤ 2 ∧
    (flatSearch [[0], [2]] [0] 2).Pairwise
      (fun a b => a.2 ≤ b.2 ∧ (a.2 = b.2 → a.1 < b.1)) :=
  flatSearch_order_spec [[0], [2]] [0] 2

/-- The ranked result list used in the C1 counterexample: the text record is
nearer to the query (similarity 1) than the image record (similarity 1/10),
so the text result is ranked first. -/
def resultsC1 : List SearchResult :=
  vectorSearch (fun _ => none) [0, 0] [[0, 0], [3, 0]]
    [{ doc_id := "t1", content_type := .text, content := "hello world",
       page := none, preview_path := none, parent_doc_id := "doc1" },
     { doc_id := "d1_page_1", content_type := .image, content := "",
       page := some 1, preview_path := some "p.png", parent_doc_id := "doc1" }] 5 []

/-- C1 counterexample: the ranked list contains an image result (with a
readable preview), yet `SearchService._generate_answer` forwards the
top-ranked text result's content to the answer generator, not the image —
refuting the claim that an image result is always preferred. -/
theorem generateAnswer_topResult_cex :
    resultsC1.map (fun r => r.content_type) = [ContentType.text, ContentType.image] ∧
    resultsC1.map (fun r => r.similarity_score) = [1, 1 / 10] ∧
    generateAnswerEvidence (fun _ => true) resultsC1 = some (Evidence.text "hello world") ∧
    generateAnswerEvidence (fun _ => true) resultsC1 ≠ some (Evidence.image "p.png") := by
  refine ⟨?_, ?_, ?_, ?_⟩ <;>
    norm_num [resultsC1, vectorSearch, flatSearch, sqDist, simOfScore, resultOrder,
      List.insertionSort, List.orderedInsert, generateAnswerEvidence,
      List.filterMap_cons, List.filterMap_nil]
  exact fun h => Evidence.noConfusion h

/-- C1 (amended): in the api.py query endpoint the nearest image result is
preferred as answer evidence regardless of similarity (else the nearest text
result); `SearchService._generate_answer` instead forwards the top-ranked
result's content — its image when the top result is an image with a readable
preview, its text content when the top result is a text record. -/
theorem winnerSelection_spec :
    (∀ (results : List ApiResult) (i : ApiResult),
      results.find? (fun r => decide (r.info.content_type = ContentType.image)) = some i →
      apiEvidence results = Evidence.image i.info.preview) ∧
    (∀ (results : List ApiResult) (t : ApiResult),
      results.find? (fun r => decide (r.info.content_type = ContentType.image)) = none →
      results.find? (fun r => decide (r.info.content_type = ContentType.text)) = some t →
      apiEvidence results = Evidence.text (t.info.content.getD "")) ∧
    (∀ (fileExists : String → Bool) (best : SearchResult) (rest : List SearchResult),
      best.content_type = ContentType.text →
      generateAnswerEvidence fileExists (best :: rest) = some (Evidence.text best.content)) ∧
    (∀ (fileExists : String → Bool) (best : SearchResult) (rest : List SearchResult)
        (p : String),
      best.content_type = ContentType.image → best.preview_path = some p →
      fileExists p = true →
      generateAnswerEvidence fileExists (best :: rest) = some (Evidence.image p)) := by
  refine ⟨?_, ?_, ?_, ?_⟩
  · intro results i h
    simp [apiEvidence, h]
  · intro results t hi ht
    simp [apiEvidence, hi, ht]
  · intro fileExists best rest h
    simp [generateAnswerEvidence, h]
  · intro fileExists best rest p hct hp hfe
    simp [generateAnswerEvidence, hct, hp, hfe]

/-- C1 witness: with a text result ranked first and an image result second,
the api.py selection forwards the image; with a text record ranked first,
`_generate_answer` forwards its content. -/
theorem winnerSelection_witness :
    apiEvidence
        [{ info := { doc_id := "t1", source := "f.pdf", content_type := .text,
                     content := some "hello", page := none, preview := "hello" },
           similarity := 1 },
         { info := { doc_id := "p1", source := "f.pdf", content_type := .image,
                     content := none, page := some 1, preview := "p.png" },
           similarity := 1 / 10 }] = Evidence.image "p.png" ∧
    generateAnswerEvidence (fun _ => true)
        [{ content := "hello", source := "d", content_type := .text,
           similarity_score := 1, page := none, doc_id := "t1",
           preview_path := none, preview_url := none }] =
      some (Evidence.text "hello") :=
  ⟨winnerSelection_spec.1 _
      { info := { doc_id := "p1", source := "f.pdf", content_type := .image,
                  content := none, page := some 1, preview := "p.png" },
        similarity := 1 / 10 } (by simp [List.find?]),
   winnerSelection_spec.2.2.1 (fun _ => true) _ [] rfl⟩

/-- C5 counterexample: in the api.py query path, a query against a state with
nothing indexed does not return an empty result list — it raises
`HTTPException(status_code=400, detail="No documents indexed yet")`, i.e. an
exception carrying a structured 400 error reaches the framework. -/
theorem queryDocuments_emptyIndex_cex :
    (queryDocuments none (fun _ => some [0]) { query := "q", top_k := 3 }).response =
      Except.error { status := 400, detail := "No documents indexed yet" } := rfl

/-- C5 (amended): `SearchService.search` (the v2 retrieve path) answers a
query against a user with no index file or empty metadata with an empty
result list, zero total results and the "No documents found for this user."
answer (when the query embedding succeeds), and is a total function — no
exception escapes; the api.py endpoint instead raises an HTTP 400 error. -/
theorem emptyIndex_query_spec (previewUrl : MetaRecord → Option String)
    (embed : String → Option Vec) (fileExists : String → Bool)
    (answerGen : String → Evidence → String)
    (loaded : Option (List Vec) × List MetaRecord) (query : String) (top_k : Nat)
    (include_answer : Bool) (filters : List (String × FilterVal))
    (h : loaded.1 = none ∨ loaded.2 = []) :
    (searchService previewUrl embed fileExists answerGen loaded query top_k
        include_answer filters).results = [] ∧
    (searchService previewUrl embed fileExists answerGen loaded query top_k
        include_answer filters).total_results = 0 ∧
    (∀ qv, embed query = some qv →
      (searchService previewUrl embed fileExists answerGen loaded query top_k
          include_answer filters).answer = some "No documents found for this user.") := by
  obtain ⟨idx, md⟩ := loaded
  cases hq : embed query with
  | none =>
    refine ⟨?_, ?_, ?_⟩
    · simp [searchService, hq]
    · simp [searchService, hq]
    · intro qv hqv
      exact Option.noConfusion hqv
  | some qv0 =>
    rcases h with h | h
    · simp only at h
      subst h
      refine ⟨?_, ?_, fun qv _ => ?_⟩ <;> simp [searchService, hq]
    · simp only at h
      subst h
      cases idx with
      | none => refine ⟨?_, ?_, fun qv _ => ?_⟩ <;> simp [searchService, hq]
      | some v => refine ⟨?_, ?_, fun qv _ => ?_⟩ <;> simp [searchService, hq]

/-- C5 witness: a user with no index file gets the empty-result
"No documents found" response from `SearchService.search`. -/
theorem emptyIndex_query_witness :
    (searchService (fun _ => none) (fun _ => some [0]) (fun _ => false) (fun _ _ => "a")
        (none, []) "q" 5 true []).results = [] ∧
    (searchService (fun _ => none) (fun _ => some [0]) (fun _ => false) (fun _ _ => "a")
        (none, []) "q" 5 true []).total_results = 0 ∧
    (searchService (fun _ => none) (fun _ => some [0]) (fun _ => false) (fun _ _ => "a")
        (none, []) "q" 5 true []).answer = some "No documents found for this user." := by
  have h := emptyIndex_query_spec (fun _ => none) (fun _ => some [0]) (fun _ => false)
    (fun _ _ => "a") (none, []) "q" 5 true [] (Or.inl rfl)
  exact ⟨h.1, h.2.1, h.2.2 [0] rfl⟩

/-- A `docs_info` record used in the C6 counterexample. -/
def docC6 : DocInfo :=
  { doc_id := "t1", source := "f.pdf", content_type := .text,
    content := some "hello", page := none, preview := "hello" }

/-- C6 counterexample: api.py's `QueryRequest` accepts `top_k = 0` (its
validation has no bound), and the query handler still performs the query
embedding call — the operation neither fails with InvalidArgument nor avoids
partial computation. -/
theorem queryRequest_topk_zero_cex :
    queryRequestValid "q" 0 = true ∧
    (queryDocuments (some ([[0]], [docC6])) (fun _ => some [0])
        { query := "q", top_k := 0 }).embedCalled = true ∧
    (queryDocuments (some ([[0]], [docC6])) (fun _ => some [0])
        { query := "q", top_k := 0 }).response = Except.ok [] := by
  refine ⟨rfl, ?_, ?_⟩ <;>
    simp [queryDocuments, searchDocuments, flatSearch]

/-- C6 (amended): only the v2 `SearchRequest` model rejects `k ≤ 0` (its
`ge=1` bound makes validation fail, before any embedding or search); the
api.py `QueryRequest` path performs the query embedding call for every `k`
whenever documents are indexed. -/
theorem topk_validation_spec :
    (∀ (q : String) (k : Int), searchRequestValid q k = true → 1 ≤ k) ∧
    (∀ (q : String) (k : Int), k ≤ 0 → searchRequestValid q k = false) ∧
    (∀ (idx : List Vec) (docs : List DocInfo) (embed : String → Option Vec)
        (q : String) (k : Int),
      (queryDocuments (some (idx, docs)) embed { query := q, top_k := k }).embedCalled =
        true) := by
  refine ⟨?_, ?_, ?_⟩
  · intro q k h
    simp only [searchRequestValid, Bool.and_eq_true, decide_eq_true_eq] at h
    exact h.1.2
  · intro q k hk
    have h1 : ¬ (1 ≤ k) := by omega
    simp [searchRequestValid, h1]
  · intro idx docs embed q k
    by_cases hres : (searchDocuments q idx docs embed k).isEmpty
    · simp [queryDocuments, hres]
    · simp [queryDocuments, hres]

/-- C6 witness: `SearchRequest` validation rejects `top_k = 0`, and the
api.py handler with an indexed document performs the embedding call. -/
theorem topk_validation_witness :
    searchRequestValid "hi" 0 = false ∧
    (queryDocuments (some ([[0]], [docC6])) (fun _ => some [0])
        { query := "hi", top_k := 5 }).embedCalled = true :=
  ⟨topk_validation_spec.2.1 "hi" 0 (by norm_num),
   topk_validation_spec.2.2 [[0]] [docC6] (fun _ => some [0]) "hi" 5⟩

/-- A metadata record used in the C8 counterexample. -/
def metaC8 : MetaRecord :=
  { doc_id := "a", content_type := .text, content := "t",
    page := none, preview_path := none, parent_doc_id := "d" }

/-- C8 counterexample: the persist sequence contains no temp-file write and
no rename, and interrupting it after its first operation leaves a persisted
state with one stored vector but an empty metadata list — the vector count
differs from the metadata-list length, which the claim says can never
happen. -/
theorem persist_interrupt_cex :
    ((persistOps [[0]] [metaC8]).all fun op => !op.isTempOrRename) = true ∧
    ¬ (applyFsOps { indexFile := [], metaFile := [], tempIndex := none, tempMeta := none }
        ((persistOps [[0]] [metaC8]).take 1)).consistent := by
  constructor
  · rfl
  · simp [persistOps, applyFsOps, applyFsOp, FsState.consistent]

/-- C8 (amended): the persist step of `_save_embeddings` is two direct
in-place writes — the index binary, then the metadata JSON — with no
temp-file/rename step; applying only the first write replaces the index file
but not the metadata file, so an interrupted persist can leave the two
artifacts out of step. -/
theorem persist_writes_spec (v : List Vec) (m : List MetaRecord) :
    persistOps v m = [FsOp.writeIndexFile v, FsOp.writeMetaFile m] ∧
    (∀ op ∈ persistOps v m, op.isTempOrRename = false) ∧
    (∀ st : FsState, applyFsOps st (persistOps v m) =
      { st with indexFile := v, metaFile := m }) ∧
    (∀ st : FsState, applyFsOps st ((persistOps v m).take 1) =
      { st with indexFile := v }) := by
  refine ⟨rfl, ?_, fun st => rfl, fun st => rfl⟩
  intro op hop
  simp only [persistOps, List.mem_cons, List.mem_singleton, List.not_mem_nil] at hop
  rcases hop with rfl | rfl | h
  · rfl
  · rfl
  · exact h.elim

/-- C8 witness: for a concrete one-vector persist, no operation is of the
temp/rename kind, the full sequence writes both artifacts, and the
interrupted prefix writes only the index file. -/
theorem persist_writes_witness :
    FsOp.isTempOrRename (FsOp.writeIndexFile [[0]]) = false ∧
    applyFsOps { indexFile := [], metaFile := [], tempIndex := none, tempMeta := none }
        (persistOps [[0]] [metaC8]) =
      { indexFile := [[0]], metaFile := [metaC8], tempIndex := none, tempMeta := none } ∧
    applyFsOps { indexFile := [], metaFile := [], tempIndex := none, tempMeta := none }
        ((persistOps [[0]] [metaC8]).take 1) =
      { indexFile := [[0]], metaFile := [], tempIndex := none, tempMeta := none } :=
  ⟨(persist_writes_spec [[0]] [metaC8]).2.1 (FsOp.writeIndexFile [[0]])
      (by simp [persistOps]),
   (persist_writes_spec [[0]] [metaC8]).2.2.1
      { indexFile := [], metaFile := [], tempIndex := none, tempMeta := none },
   (persist_writes_spec [[0]] [metaC8]).2.2.2
      { indexFile := [], metaFile := [], tempIndex := none, tempMeta := none }⟩

/-- Rounding an integer (cast to ℚ) is the identity. -/
lemma roundHalfEven_intCast (n : ℤ) : roundHalfEven (n : ℚ) = n := by
  unfold roundHalfEven
  rw [Int.floor_intCast]
  norm_num

/-- `round4` is idempotent: a value already rounded to 4 decimal places is
unchanged by rounding again. -/
lemma round4_idem (q : ℚ) : round4 (round4 q) = round4 q := by
  unfold round4
  have h : ((roundHalfEven (q * 10000) : ℚ) / 10000) * 10000 =
      (roundHalfEven (q * 10000) : ℚ) := by
    field_simp
  rw [h, roundHalfEven_intCast]

/-- A metadata record used in the C9 counterexample. -/
def metaC9 : MetaRecord :=
  { doc_id := "t1", content_type := .text, content := "hello",
    page := none, preview_path := none, parent_doc_id := "doc1" }

/-- C9 counterexample: `SearchService.search` returns a result whose
similarity score `1/3` (distance 2) is not a 4-decimal value — it is not
invariant under `round4` — so not every Search Result returned to a caller
carries a similarity rounded to 4 decimal places. -/
theorem searchService_unrounded_cex :
    ((searchService (fun _ => none) (fun _ => some [1, 1]) (fun _ => false) (fun _ _ => "")
        (some [[0, 0]], [metaC9]) "q" 5 false []).results.map
          fun r => r.similarity_score) = [1 / 3] ∧
    round4 (1 / 3 : ℚ) ≠ (1 / 3 : ℚ) := by
  constructor
  · norm_num [searchService, vectorSearch, flatSearch, sqDist, simOfScore, resultOrder,
      List.insertionSort, List.orderedInsert, List.filterMap_cons, List.filterMap_nil,
      metaC9]
  · have h : ⌊(1 / 3 : ℚ) * 10000⌋ = 3333 := by norm_num [Int.floor_eq_iff]
    norm_num [round4, roundHalfEven, h]

/-- C9 (amended): every source in the api.py query response carries a
similarity rounded to 4 decimal places (it is invariant under `round4`),
while `SearchService` results carry the raw similarity. -/
theorem sources_rounded_spec (loaded : Option (List Vec × List DocInfo))
    (embed : String → Option Vec) (request : QueryRequest) :
    ∀ srcs, (queryDocuments loaded embed request).response = Except.ok srcs →
      ∀ s ∈ srcs, round4 s.similarity = s.similarity := by
  intro srcs h s hs
  cases loaded with
  | none => simp [queryDocuments] at h
  | some p =>
    obtain ⟨idx, docs⟩ := p
    by_cases hres : (searchDocuments request.query idx docs embed request.top_k).isEmpty
    · simp only [queryDocuments, hres, if_pos] at h
      cases h
      exact absurd hs (List.not_mem_nil s)
    · simp only [queryDocuments, hres, if_neg, Bool.false_eq_true,
        not_false_eq_true] at h
      cases h
      simp only [List.mem_map] at hs
      obtain ⟨r, _, rfl⟩ := hs
      simp [mkQuerySource, round4_idem]

/-- A `docs_info` record used in the C9 witness. -/
def docC9 : DocInfo :=
  { doc_id := "t1", source := "f.pdf", content_type := .text,
    content := some "hello", page := none, preview := "hello" }

/-- C9 witness: for a one-document index whose stored vector equals the
query vector (distance 0, similarity 1), the returned source's similarity is
invariant under `round4`. -/
theorem sources_rounded_witness :
    round4 (mkQuerySource { info := docC9, similarity := 1 }).similarity =
      (mkQuerySource { info := docC9, similarity := 1 }).similarity := by
  have hfs : flatSearch [[0]] [0] ((5 : Int).toNat) = [(0, (0 : ℚ))] := by
    simp [flatSearch, sqDist, List.insertionSort, List.orderedInsert]
  have hsd : searchDocuments "q" [[0]] [docC9] (fun _ => some [0]) 5 =
      [{ info := docC9, similarity := 1 }] := by
    norm_num [searchDocuments, hfs, simOfScore, List.filterMap_cons, List.filterMap_nil,
      List.getElem?_cons_zero]
  have hresp : (queryDocuments (some ([[0]], [docC9])) (fun _ => some [0])
      { query := "q", top_k := 5 }).response =
      Except.ok [mkQuerySource { info := docC9, similarity := 1 }] := by
    norm_num [queryDocuments, hsd]
  exact sources_rounded_spec (some ([[0]], [docC9])) (fun _ => some [0])
    { query := "q", top_k := 5 } [mkQuerySource { info := docC9, similarity := 1 }]
    hresp (mkQuerySource { info := docC9, similarity := 1 }) (by simp)

/-- The page loop appends one entry per page with an available embedding to
each of the two lists. -/
lemma processPages_lengths (d f : String) (sp : String → String) (n : Nat)
    (embs : List (Option Vec)) :
    (processPages d f sp n embs).1.length = embs.countP (fun o => o.isSome) ∧
    (processPages d f sp n embs).2.length = embs.countP (fun o => o.isSome) := by
  induction embs generalizing n with
  | nil => simp [processPages]
  | cons o rest ih =>
    cases o with
    | none =>
      have h := ih (n + 1)
      simp [processPages, List.countP_cons, h.1, h.2]
    | some e =>
      have h := ih (n + 1)
      simp [processPages, List.countP_cons, h.1, h.2]

/-- A page whose embedding is available appears in both lists built by the
page loop, under its page-scoped identifier. -/
lemma processPages_mem (d f : String) (sp : String → String)
    (embs : List (Option Vec)) :
    ∀ (n j : Nat) (emb : Vec), embs.get? j = some (some emb) →
      ({ embedding := emb, doc_id := pageId d (n + j), content_type := .image } :
          NewEmbedding) ∈ (processPages d f sp n embs).1 ∧
      ∃ di ∈ (processPages d f sp n embs).2,
        di.doc_id = pageId d (n + j) ∧ di.page = some (n + j) := by
  induction embs with
  | nil => intro n j emb h; simp at h
  | cons o rest ih =>
    intro n j emb h
    cases j with
    | zero =>
      rw [List.get?_cons_zero] at h
      cases h
      constructor
      · simp [processPages]
      · refine ⟨{ doc_id := pageId d n, source := f, content_type := .image,
                  content := none, page := some n,
                  preview := sp (pageId d n ++ ".png") }, ?_, ?_, ?_⟩
        · simp [processPages]
        · simp
        · simp
    | succ j' =>
      rw [List.get?_cons_succ] at h
      have harg : n + 1 + j' = n + (j' + 1) := by omega
      obtain ⟨h1, di, hdi, hdid, hdip⟩ := ih (n + 1) j' emb h
      rw [harg] at h1 hdid hdip
      cases o with
      | none =>
        refine ⟨?_, di, ?_, hdid, hdip⟩
        · simpa [processPages] using h1
        · simpa [processPages] using hdi
      | some e =>
        refine ⟨?_, di, ?_, hdid, hdip⟩
        · exact List.mem_cons_of_mem _ h1
        · exact List.mem_cons_of_mem _ hdi

/-- Every entry of the page loop's embedding list comes from a page whose
embedding was available. -/
lemma processPages_sound (d f : String) (sp : String → String)
    (embs : List (Option Vec)) :
    ∀ (n : Nat) (ne : NewEmbedding), ne ∈ (processPages d f sp n embs).1 →
      ∃ j, embs.get? j = some (some ne.embedding) ∧
        ne.doc_id = pageId d (n + j) ∧ ne.content_type = .image := by
  induction embs with
  | nil => intro n ne h; simp [processPages] at h
  | cons o rest ih =>
    intro n ne h
    cases o with
    | none =>
      obtain ⟨j, hj, hid, hct⟩ := ih (n + 1) ne (by simpa [processPages] using h)
      refine ⟨j + 1, by simpa using hj, ?_, hct⟩
      rw [hid]
      congr 1
      omega
    | some e =>
      rcases List.mem_cons.mp h with hh | h'
      · subst hh
        exact ⟨0, by simp, by simp, rfl⟩
      · obtain ⟨j, hj, hid, hct⟩ := ih (n + 1) ne h'
        refine ⟨j + 1, by simpa using hj, ?_, hct⟩
        rw [hid]
        congr 1
        omega

/-- The text branch contributes one entry to each list exactly when the text
is non-blank and its embedding is available. -/
lemma textPart_lengths (d f : String) (text : String) (te : Option Vec) :
    (textPart d f text te).1.length =
      (if ¬text.trim.isEmpty ∧ te.isSome then 1 else 0) ∧
    (textPart d f text te).2.length =
      (if ¬text.trim.isEmpty ∧ te.isSome then 1 else 0) := by
  unfold textPart
  by_cases ht : text.trim.isEmpty
  · simp [ht]
  · cases te <;> simp [ht]

/-- Every entry of the text branch's embedding list is a text entry. -/
lemma textPart_content_type (d f : String) (text : String) (te : Option Vec) :
    ∀ ne ∈ (textPart d f text te).1, ne.content_type = ContentType.text := by
  intro ne h
  unfold textPart at h
  split at h
  · simp at h
  · cases te with
    | none => simp at h
    | some emb =>
      rw [List.mem_singleton] at h
      subst h
      rfl

/-- C7: during batch ingestion every item whose embedding is unavailable is
omitted from both the embeddings batch and the `docs_info` list while all
sibling items are still processed, and the reported embeddings count — the
batch length — equals the number of successfully embedded items only. -/
theorem processDocument_skip_spec (doc_id filename : String)
    (savePreview : String → String) (text : String) (textEmb : Option Vec)
    (pageEmbs : List (Option Vec)) :
    ((processDocument doc_id filename savePreview text textEmb pageEmbs).1.length =
      (if ¬text.trim.isEmpty ∧ textEmb.isSome then 1 else 0) +
        pageEmbs.countP (fun o => o.isSome)) ∧
    ((processDocument doc_id filename savePreview text textEmb pageEmbs).2.length =
      (if ¬text.trim.isEmpty ∧ textEmb.isSome then 1 else 0) +
        pageEmbs.countP (fun o => o.isSome)) ∧
    (∀ (j : Nat) (emb : Vec), pageEmbs.get? j = some (some emb) →
      ({ embedding := emb, doc_id := pageId doc_id (j + 1), content_type := .image } :
          NewEmbedding) ∈
        (processDocument doc_id filename savePreview text textEmb pageEmbs).1 ∧
      ∃ di ∈ (processDocument doc_id filename savePreview text textEmb pageEmbs).2,
        di.doc_id = pageId doc_id (j + 1) ∧ di.page = some (j + 1)) ∧
    (∀ ne ∈ (processDocument doc_id filename savePreview text textEmb pageEmbs).1,
      ne.content_type = ContentType.image →
      ∃ j, pageEmbs.get? j = some (some ne.embedding) ∧
        ne.doc_id = pageId doc_id (j + 1)) := by
  refine ⟨?_, ?_, ?_, ?_⟩
  · simp [processDocument, (textPart_lengths doc_id filename text textEmb).1,
      (processPages_lengths doc_id filename savePreview 1 pageEmbs).1]
  · simp [processDocument, (textPart_lengths doc_id filename text textEmb).2,
      (processPages_lengths doc_id filename savePreview 1 pageEmbs).2]
  · intro j emb h
    have harg : 1 + j = j + 1 := by omega
    obtain ⟨h1, di, hdi, hdid, hdip⟩ :=
      processPages_mem doc_id filename savePreview pageEmbs 1 j emb h
    rw [harg] at h1 hdid hdip
    constructor
    · exact List.mem_append_right _ h1
    · exact ⟨di, List.mem_append_right _ hdi, hdid, hdip⟩
  · intro ne hne hct
    rcases List.mem_append.mp hne with hl | hr
    · have := textPart_content_type doc_id filename text textEmb ne hl
      rw [this] at hct
      exact ContentType.noConfusion hct
    · obtain ⟨j, hj, hid, _⟩ :=
        processPages_sound doc_id filename savePreview pageEmbs 1 ne hr
      refine ⟨j, hj, ?_⟩
      rw [hid]
      congr 1
      omega

/-- C7 witness: with an unavailable text embedding and three pages of which
the middle one's embedding is unavailable, both lists carry exactly the two
successfully embedded pages, and page 1 is present under its page id. -/
theorem processDocument_skip_witness :
    (processDocument "d" "f" (fun s => s) "hello" none
        [some [2], none, some [3]]).1.length = 2 ∧
    (processDocument "d" "f" (fun s => s) "hello" none
        [some [2], none, some [3]]).2.length = 2 ∧
    ({ embedding := [2], doc_id := pageId "d" 1, content_type := .image } :
        NewEmbedding) ∈
      (processDocument "d" "f" (fun s => s) "hello" none
        [some [2], none, some [3]]).1 := by
  have h := processDocument_skip_spec "d" "f" (fun s => s) "hello" none
    [some [2], none, some [3]]
  refine ⟨?_, ?_, (h.2.2.1 0 [2] rfl).1⟩
  · rw [h.1]
    norm_num
  · rw [h.2.1]
    norm_num

end MultimodalRag
